import Mathlib

set_option maxRecDepth 8192

/-!
Verification of the session-state synchronization subsystem of the OrionTV
client (the `useAuthStore` zustand store and the OAuth deep-link handler).

The repository contains several historical variants of the store:
* `src/stores/authStore.ts` — the current store (suffix `V0` below);
* `src/unnamed/part_000` — a variant whose `checkLoginStatus` polls the
  cookie store 6 times with a 1000 ms delay and whose `handleOAuthCallback`
  forces `isLoggedIn = true` when verification fails (suffix `P0`);
* `src/unnamed/part_001` — a variant polling 5 times with an 800 ms delay
  (suffix `P1`);
* `src/app/_layout.tsx` — `handleOAuthDeepLink`, which performs the
  token-for-cookie exchange; its `authStore.set(...)` calls throw (the
  store state exposes no `set` member), so its success region is
  unreachable and the handler resolves `false` via its inner catch.

The embedding is a state-passing translation: every collaborator call that
can reject (`Cookies.get`, `api.login`, `api.logout`, `api.register`,
`api.handleOAuthCallback`, the exchange-token `fetch`) is a value of type
`Except JsError _` supplied by an environment record, the zustand `set`
calls become functional record updates of `AuthState`, and `Toast.show`
calls are accumulated in a list.  JavaScript truthiness of strings
(empty string is falsy) is modelled by `truthyStr`.
-/

/-- A JavaScript exception value, as far as the store inspects it:
`error instanceof Error && error.message === "UNAUTHORIZED"`. -/
structure JsError where
  isErrorInstance : Bool
  message : String
deriving DecidableEq, Repr

/-- JS string truthiness of an optional string field: absent and the
empty string are falsy. -/
def truthyStr : Option String → Bool
  | none => false
  | some s => s ≠ ""

/-- The store classifies an exception as 401 when it is an `Error` whose
message is exactly "UNAUTHORIZED" (authStore.ts line 98). -/
def isUnauthorizedErr (e : JsError) : Bool :=
  e.isErrorInstance && e.message == "UNAUTHORIZED"

/-- The cookie map returned by `Cookies.get`; only the `auth` cookie is
read by the store. -/
structure CookieMap where
  auth : Option String
deriving DecidableEq, Repr

/-- The server configuration as read from the settings store; the store
only reads the `StorageType` field, which may be missing or empty. -/
structure ServerConfig where
  StorageType : Option String
deriving DecidableEq, Repr

/-- The current user record kept in the store. -/
structure UserInfo where
  username : String
  role : Option String
  linuxdoId : Option Nat
  linuxdoUsername : Option String
deriving DecidableEq, Repr

/-- The zustand `AuthState` fields that the store mutates. -/
structure AuthState where
  isLoggedIn : Bool
  isLoginModalVisible : Bool
  isRegisterModalVisible : Bool
  isOAuthInProgress : Bool
  oAuthUrl : Option String
  currentUser : Option UserInfo
deriving DecidableEq, Repr

/-- The initial store state (authStore.ts lines 36-41). -/
def initialAuthState : AuthState :=
  { isLoggedIn := false
    isLoginModalVisible := false
    isRegisterModalVisible := false
    isOAuthInProgress := false
    oAuthUrl := none
    currentUser := none }

/-- A `Toast.show` call: type, title, optional detail text. -/
structure ToastMsg where
  ttype : String
  text1 : String
  text2 : Option String
deriving DecidableEq, Repr

/-- Settings-store snapshot consumed by `checkLoginStatus`: the initial
loading flag and config, and — when the config was still loading — the
outcome of the bounded 3000 ms / 100 ms wait loop (`some c`: loading
finished during the wait and the config read then was `c`; `none`: the
wait timed out, the initial config is kept). -/
structure SettingsEnv where
  isLoadingServerConfig : Bool
  serverConfig0 : Option ServerConfig
  waitOutcome : Option (Option ServerConfig)
deriving Repr

/-- The server config `checkLoginStatus` ends up using after the optional
wait loop (authStore.ts lines 53-72). -/
def resolveConfig (st : SettingsEnv) : Option ServerConfig :=
  if st.isLoadingServerConfig then
    match st.waitOutcome with
    | some c => c
    | none => st.serverConfig0
  else st.serverConfig0

/-- Truthiness of `serverConfig?.StorageType` for the resolved config. -/
def configStorage (st : SettingsEnv) : Option String :=
  (resolveConfig st).bind ServerConfig.StorageType

/-- The `serverConfig.StorageType === "localstorage"` test. -/
def isLocalStorage : Option ServerConfig → Bool
  | none => false
  | some c => c.StorageType == some "localstorage"

/-- Result of `api.login()`. -/
structure LoginResult where
  ok : Bool
  error : Option String
deriving DecidableEq, Repr

/-- Collaborator behavior for one run of the current `checkLoginStatus`
(authStore.ts lines 46-104): the settings snapshot, the single
`Cookies.get(api.baseURL)` outcome, and the `api.login()` outcome. -/
structure CheckEnvV where
  settings : SettingsEnv
  cookies : Except JsError CookieMap
  loginResult : Except JsError LoginResult
deriving Repr

/-- Toast shown when the server config has no storage type
(authStore.ts line 77). -/
def toastConfigError : ToastMsg :=
  { ttype := "error", text1 := "请检查网络或者服务器地址是否可用", text2 := none }

/-- `checkLoginStatus` of src/stores/authStore.ts (lines 46-104), as a
function from the collaborator environment, the `apiBaseUrl` argument and
the current state to the next state plus emitted toasts.  The body's only
suspension points that can reject are `Cookies.get` (propagating to the
outer catch, lines 96-103) and `api.login()` (absorbed by its own
`.catch`, lines 83-85). -/
def checkLoginStatusV0 (env : CheckEnvV) (apiBaseUrl : Option String)
    (s : AuthState) : AuthState × List ToastMsg :=
  if !truthyStr apiBaseUrl then
    ({ s with isLoggedIn := false, isLoginModalVisible := false }, [])
  else
    let serverConfig := resolveConfig env.settings
    if !truthyStr (serverConfig.bind ServerConfig.StorageType) then
      (s, if !env.settings.isLoadingServerConfig then [toastConfigError] else [])
    else
      match env.cookies with
      | Except.error e =>
          if isUnauthorizedErr e then
            ({ s with isLoggedIn := false, isLoginModalVisible := true }, [])
          else
            ({ s with isLoggedIn := false }, [])
      | Except.ok cookies =>
          if isLocalStorage serverConfig && !truthyStr cookies.auth then
            match env.loginResult with
            | Except.error _ =>
                ({ s with isLoggedIn := false, isLoginModalVisible := true }, [])
            | Except.ok r =>
                if r.ok then ({ s with isLoggedIn := true }, []) else (s, [])
          else
            let li := truthyStr cookies.auth
            if !li then
              ({ s with isLoggedIn := li, isLoginModalVisible := true }, [])
            else
              ({ s with isLoggedIn := li }, [])

/-- The `isLoggedIn` outcome of `checkLoginStatusV0` as a function of the
environment alone: `some b` when the run writes the value `b`, `none`
when the run leaves `isLoggedIn` untouched.  Every branch condition of
`checkLoginStatusV0` depends only on the environment and the argument,
never on the incoming state. -/
def loginOutcomeV0 (env : CheckEnvV) (apiBaseUrl : Option String) : Option Bool :=
  if !truthyStr apiBaseUrl then some false
  else
    let serverConfig := resolveConfig env.settings
    if !truthyStr (serverConfig.bind ServerConfig.StorageType) then none
    else
      match env.cookies with
      | Except.error _ => some false
      | Except.ok cookies =>
          if isLocalStorage serverConfig && !truthyStr cookies.auth then
            match env.loginResult with
            | Except.error _ => some false
            | Except.ok r => if r.ok then some true else none
          else some (truthyStr cookies.auth)

theorem checkLoginStatusV0_isLoggedIn (env : CheckEnvV) (u : Option String)
    (s : AuthState) :
    (checkLoginStatusV0 env u s).1.isLoggedIn
      = (loginOutcomeV0 env u).getD s.isLoggedIn := by
  unfold checkLoginStatusV0 loginOutcomeV0
  repeat' split <;> try simp_all

/-- JS `String.prototype.startsWith`, modelled on the character list
(`url.startsWith('oriontv://oauth/callback')` in the handlers). -/
def strStartsWith (s pre : String) : Bool := pre.data.isPrefixOf s.data

/-- Result of `api.logout()`. -/
structure LogoutResult where
  ok : Bool
deriving DecidableEq, Repr

/-- A cookie jar for the whole app, acted on by `Cookies.clearAll()`. -/
def clearAllJar (_jar : List (String × String)) : List (String × String) := []

/-- `logout` of src/stores/authStore.ts (lines 105-124): try calls
`api.logout()`, then `Cookies.clearAll()` and the state reset; the catch
(a rejected logout call) performs the same `clearAll` and reset. -/
def logoutV0 (logoutResult : Except JsError LogoutResult)
    (jar : List (String × String)) (s : AuthState) :
    List (String × String) × AuthState :=
  match logoutResult with
  | Except.ok _ =>
      (clearAllJar jar,
        { s with isLoggedIn := false, isLoginModalVisible := true, currentUser := none })
  | Except.error _ =>
      (clearAllJar jar,
        { s with isLoggedIn := false, isLoginModalVisible := true, currentUser := none })

/-- Result of `api.register`, normalized by the API client to
`{ok, error?, message?, needsApproval?}`. -/
structure RegisterResult where
  ok : Bool
  error : Option String
  message : Option String
  needsApproval : Option Bool
deriving DecidableEq, Repr

/-- `register` of src/stores/authStore.ts (lines 126-164): maps the
server result onto a boolean plus toasts; on `ok` it hides the register
modal and shows the login modal; otherwise (including a rejected call)
the state is untouched. -/
def registerV0 (result : Except JsError RegisterResult) (s : AuthState) :
    AuthState × Bool × List ToastMsg :=
  match result with
  | Except.ok r =>
      if r.ok then
        ({ s with isRegisterModalVisible := false, isLoginModalVisible := true },
          true,
          [if r.needsApproval == some true then
            { ttype := "success", text1 := "注册申请已提交",
              text2 := some (r.message.getD "请等待管理员审核") }
          else
            { ttype := "success", text1 := "注册成功",
              text2 := some (r.message.getD "请使用新账号登录") }])
      else
        (s, false,
          [{ ttype := "error", text1 := "注册失败",
             text2 := some ((r.error.or r.message).getD "请检查输入信息") }])
  | Except.error e =>
      (s, false,
        [{ ttype := "error", text1 := "注册失败",
           text2 := some (if e.isErrorInstance then e.message else "网络错误或服务器异常") }])

/-- The query parameters a callback handler reads off a parsed URL. -/
structure UrlParams where
  success : Option String
  token : Option String
  code : Option String
  stateParam : Option String
  error : Option String
deriving DecidableEq, Repr

/-- A URL given to a callback handler: the raw string (used for the
`startsWith` scheme test) and `none` in `parsed` when `new URL(url)`
throws. -/
structure OAuthUrl where
  raw : String
  parsed : Option UrlParams
deriving DecidableEq, Repr

/-- Result of `api.handleOAuthCallback(code, state)`. -/
structure ApiCallbackResult where
  ok : Bool
  error : Option String
deriving DecidableEq, Repr

/-- Collaborator behavior for one run of the current
`handleOAuthCallback` (authStore.ts lines 247-341): the settings
`apiBaseUrl`, the environment of the nested `checkLoginStatus` call, and
the `api.handleOAuthCallback` outcome. -/
structure CallbackEnvV where
  apiBaseUrl : Option String
  checkEnv : CheckEnvV
  oauthCbResult : Except JsError ApiCallbackResult
deriving Repr

/-- Toast of the outer catch of `handleOAuthCallback` in authStore.ts
(lines 335-340). -/
def toastCallbackFailV0 : ToastMsg :=
  { ttype := "error", text1 := "授权回调处理失败", text2 := some "网络错误或服务器异常" }

/-- Toast of the missing-`code`/`state` branch (authStore.ts 296-300). -/
def toastMissingParams : ToastMsg :=
  { ttype := "error", text1 := "授权参数错误", text2 := some "授权回调参数缺失" }

/-- `handleOAuthCallback` of src/stores/authStore.ts (lines 247-341).
The deep-link `success === 'true'` branch and the code/state exchange
branch both first force `isLoggedIn := true` and then re-run
`checkLoginStatus`; a URL-parse failure lands in the outer catch, which
clears the in-progress marker and returns `false`. -/
def handleOAuthCallbackV0 (env : CallbackEnvV) (url : OAuthUrl) (s : AuthState) :
    AuthState × Bool × List ToastMsg :=
  match url.parsed with
  | none => ({ s with isOAuthInProgress := false }, false, [toastCallbackFailV0])
  | some p =>
      let deepLink := strStartsWith url.raw "oriontv://oauth/callback"
      if deepLink && (p.success == some "true") then
        let s1 := { s with isLoggedIn := true, isOAuthInProgress := false,
                           isLoginModalVisible := false, oAuthUrl := none }
        let r := checkLoginStatusV0 env.checkEnv env.apiBaseUrl s1
        (r.1, true,
          r.2 ++ [{ ttype := "success", text1 := "LinuxDo 授权登录成功", text2 := none }])
      else if deepLink && truthyStr p.error then
        ({ s with isOAuthInProgress := false }, false,
          [{ ttype := "error", text1 := "授权失败", text2 := p.error }])
      else if truthyStr p.error then
        ({ s with isOAuthInProgress := false }, false,
          [{ ttype := "error", text1 := "授权失败", text2 := some "用户取消授权或授权被拒绝" }])
      else if !truthyStr p.code || !truthyStr p.stateParam then
        ({ s with isOAuthInProgress := false }, false, [toastMissingParams])
      else
        match env.oauthCbResult with
        | Except.error _ =>
            ({ s with isOAuthInProgress := false }, false, [toastCallbackFailV0])
        | Except.ok r =>
            if r.ok then
              let s1 := { s with isLoggedIn := true, isOAuthInProgress := false,
                                 isLoginModalVisible := false, oAuthUrl := none }
              let r2 := checkLoginStatusV0 env.checkEnv env.apiBaseUrl s1
              (r2.1, true,
                r2.2 ++ [{ ttype := "success", text1 := "LinuxDo 授权登录成功", text2 := none }])
            else
              ({ s with isOAuthInProgress := false }, false,
                [{ ttype := "error", text1 := "授权处理失败",
                   text2 := some ((r.error).getD "服务器处理授权信息时出错") }])

/-- One cookie-retrieval attempt succeeds when `Cookies.get` resolves and
the returned map has a truthy `auth` cookie. -/
def probeAuth (probe : Nat → Except JsError CookieMap) (i : Nat) : Bool :=
  match probe i with
  | Except.ok c => truthyStr c.auth
  | Except.error _ => false

/-- The cookie retry loop body shared by part_000 (6 attempts, 1000 ms)
and part_001 (5 attempts, 800 ms): attempt `i` reads the cookie store;
on resolution the `cookies` variable is overwritten and the loop breaks
when the auth cookie is truthy; on rejection the previous value is kept.
Returns the final `cookies` variable and the number of attempts made. -/
def pollGo (probe : Nat → Except JsError CookieMap) :
    Nat → Nat → Option CookieMap → Option CookieMap × Nat
  | 0, i, acc => (acc, i)
  | fuel + 1, i, acc =>
      match probe i with
      | Except.ok c =>
          if truthyStr c.auth then (some c, i + 1)
          else pollGo probe fuel (i + 1) (some c)
      | Except.error _ => pollGo probe fuel (i + 1) acc

/-- `maxRetries` of the loop in src/unnamed/part_000 (line 92). -/
def maxRetriesP0 : Nat := 6

/-- `retryDelay` (ms) of the loop in src/unnamed/part_000 (line 93). -/
def retryDelayP0 : Nat := 1000

/-- `maxRetries` of the loop in src/unnamed/part_001 (line 86). -/
def maxRetriesP1 : Nat := 5

/-- `retryDelay` (ms) of the loop in src/unnamed/part_001 (line 87). -/
def retryDelayP1 : Nat := 800

/-- The cookie retry loop of part_000's `checkLoginStatus` (lines 90-120). -/
def cookiePollP0 (probe : Nat → Except JsError CookieMap) :
    Option CookieMap × Nat :=
  pollGo probe maxRetriesP0 0 none

/-- The cookie retry loop of part_001's `checkLoginStatus` (lines 84-113). -/
def cookiePollP1 (probe : Nat → Except JsError CookieMap) :
    Option CookieMap × Nat :=
  pollGo probe maxRetriesP1 0 none

/-- Truthiness of `cookies?.auth` when the loop may have left `cookies`
null (every attempt rejected). -/
def truthyAuthOpt : Option CookieMap → Bool
  | none => false
  | some c => truthyStr c.auth

/-- Collaborator behavior for the polling variants of `checkLoginStatus`:
the settings snapshot, the per-attempt `Cookies.get` outcomes, and the
`api.login()` outcome. -/
structure CheckEnvP where
  settings : SettingsEnv
  probe : Nat → Except JsError CookieMap
  loginResult : Except JsError LoginResult

/-- `checkLoginStatus` of src/unnamed/part_000 (lines 48-168): cookie
retrieval is the 6-attempt retry loop; in localstorage mode a present
auth cookie short-circuits to logged-in; otherwise `isLoggedIn` is the
cookie presence, and the login modal is shown on a transition
logged-in → logged-out or whenever logged out and not already shown. -/
def checkLoginStatusP0 (env : CheckEnvP) (apiBaseUrl : Option String)
    (s : AuthState) : AuthState × List ToastMsg :=
  if !truthyStr apiBaseUrl then
    ({ s with isLoggedIn := false, isLoginModalVisible := false }, [])
  else
    let serverConfig := resolveConfig env.settings
    if !truthyStr (serverConfig.bind ServerConfig.StorageType) then
      (s, if !env.settings.isLoadingServerConfig then [toastConfigError] else [])
    else
      let cookies := (cookiePollP0 env.probe).1
      if isLocalStorage serverConfig then
        if !truthyAuthOpt cookies then
          match env.loginResult with
          | Except.error _ =>
              ({ s with isLoggedIn := false, isLoginModalVisible := true }, [])
          | Except.ok r =>
              if r.ok then ({ s with isLoggedIn := true }, []) else (s, [])
        else ({ s with isLoggedIn := true }, [])
      else
        let li := truthyAuthOpt cookies
        let wasLoggedIn := s.isLoggedIn
        if wasLoggedIn && !li then
          ({ s with isLoggedIn := li, isLoginModalVisible := true }, [])
        else if !li && !s.isLoginModalVisible then
          ({ s with isLoggedIn := li, isLoginModalVisible := true }, [])
        else
          ({ s with isLoggedIn := li }, [])

/-- `checkLoginStatus` of src/unnamed/part_001 (lines 48-137): the
5-attempt retry loop, then the same branching as the current store. -/
def checkLoginStatusP1 (env : CheckEnvP) (apiBaseUrl : Option String)
    (s : AuthState) : AuthState × List ToastMsg :=
  if !truthyStr apiBaseUrl then
    ({ s with isLoggedIn := false, isLoginModalVisible := false }, [])
  else
    let serverConfig := resolveConfig env.settings
    if !truthyStr (serverConfig.bind ServerConfig.StorageType) then
      (s, if !env.settings.isLoadingServerConfig then [toastConfigError] else [])
    else
      let cookies := (cookiePollP1 env.probe).1
      if isLocalStorage serverConfig && !truthyAuthOpt cookies then
        match env.loginResult with
        | Except.error _ =>
            ({ s with isLoggedIn := false, isLoginModalVisible := true }, [])
        | Except.ok r =>
            if r.ok then ({ s with isLoggedIn := true }, []) else (s, [])
      else
        let li := truthyAuthOpt cookies
        if !li then
          ({ s with isLoggedIn := li, isLoginModalVisible := true }, [])
        else
          ({ s with isLoggedIn := li }, [])

/-- Collaborator behavior for part_000's `handleOAuthCallback`. -/
structure CallbackEnvP where
  apiBaseUrl : Option String
  checkEnv : CheckEnvP

/-- `handleOAuthCallback` of src/unnamed/part_000 (lines 312-390): after
a parse the in-progress marker is cleared; an `error` parameter fails;
`success=true` with a truthy `token` runs `checkLoginStatus` and — when
`isLoggedIn` is still false afterwards — FORCES `isLoggedIn := true`
("即使checkLoginStatus返回false，也认为OAuth成功，强制设置登录状态")
and returns `true`; a missing token fails.  A URL-parse failure lands in
the outer catch, which only emits a toast. -/
def handleOAuthCallbackP0 (env : CallbackEnvP) (url : OAuthUrl) (s : AuthState) :
    AuthState × Bool × List ToastMsg :=
  match url.parsed with
  | none =>
      (s, false,
        [{ ttype := "error", text1 := "授权回调处理失败", text2 := some "网络错误或服务器异常" }])
  | some p =>
      let s1 := { s with isOAuthInProgress := false, oAuthUrl := none }
      if truthyStr p.error then
        (s1, false,
          [{ ttype := "error", text1 := "授权失败",
             text2 := some ((p.error).getD "用户取消授权或授权被拒绝") }])
      else if (p.success == some "true") && truthyStr p.token then
        if !truthyStr env.apiBaseUrl then
          (s1, false,
            [{ ttype := "error", text1 := "登录失败", text2 := some "服务器配置不可用" }])
        else
          let r := checkLoginStatusP0 env.checkEnv env.apiBaseUrl s1
          if r.1.isLoggedIn then
            ({ r.1 with isLoginModalVisible := false }, true,
              r.2 ++ [{ ttype := "success", text1 := "LinuxDo 授权登录成功", text2 := none }])
          else
            ({ r.1 with isLoggedIn := true, isLoginModalVisible := false }, true,
              r.2 ++ [{ ttype := "success", text1 := "LinuxDo 授权登录成功", text2 := none }])
      else
        (s1, false,
          [{ ttype := "error", text1 := "授权参数错误",
             text2 := some "授权回调缺少token参数，请重试" }])

/-- Collaborator behavior for part_001's `handleOAuthCallback`: the
settings `apiBaseUrl`, the environment of the nested `checkLoginStatus`
calls, and the `api.handleOAuthCallback(code, state)` outcome. -/
structure CallbackEnvP1 where
  apiBaseUrl : Option String
  checkEnv : CheckEnvP
  oauthCbResult : Except JsError ApiCallbackResult

/-- `_handleSuccessfulOAuth` of src/unnamed/part_001 (lines 340-365): it
immediately forces `isLoggedIn := true` — before any verification — then
after a 1500 ms delay runs `_waitForCookieAndRefreshStatus` (up to 5
`checkLoginStatus` attempts, which collapses to the first call because
the embedded `checkLoginStatus` is total and never throws) and resolves
`true` in both its try and its catch branch
("即使检查失败，也认为OAuth成功"). -/
def handleSuccessfulOAuthP1 (env : CheckEnvP) (apiBaseUrl : Option String)
    (s : AuthState) : AuthState × Bool × List ToastMsg :=
  let s1 := { s with isLoggedIn := true, isOAuthInProgress := false,
                     isLoginModalVisible := false, oAuthUrl := none }
  let r := checkLoginStatusP1 env apiBaseUrl s1
  (r.1, true,
    r.2 ++ [{ ttype := "success", text1 := "LinuxDo 授权登录成功", text2 := none }])

/-- `handleOAuthCallback` of src/unnamed/part_001 (lines 281-338): after
a parse the in-progress marker is cleared; the deep-link `success=true`
branch and the `code`/`state` exchange-success branch both defer to
`_handleSuccessfulOAuth`; error and missing-parameter branches return
`false`; a parse failure lands in the outer catch, which only emits a
toast. -/
def handleOAuthCallbackP1 (env : CallbackEnvP1) (url : OAuthUrl) (s : AuthState) :
    AuthState × Bool × List ToastMsg :=
  match url.parsed with
  | none =>
      (s, false,
        [{ ttype := "error", text1 := "授权回调处理失败", text2 := some "网络错误或服务器异常" }])
  | some p =>
      let s1 := { s with isOAuthInProgress := false, oAuthUrl := none }
      let deepLink := strStartsWith url.raw "oriontv://oauth/callback"
      if deepLink && (p.success == some "true") then
        handleSuccessfulOAuthP1 env.checkEnv env.apiBaseUrl s1
      else if deepLink && truthyStr p.error then
        (s1, false, [{ ttype := "error", text1 := "授权失败", text2 := p.error }])
      else if truthyStr p.error then
        (s1, false,
          [{ ttype := "error", text1 := "授权失败", text2 := some "用户取消授权或授权被拒绝" }])
      else if !truthyStr p.code || !truthyStr p.stateParam then
        (s1, false,
          [{ ttype := "error", text1 := "授权参数错误", text2 := some "授权回调参数缺失" }])
      else
        match env.oauthCbResult with
        | Except.error _ =>
            (s1, false,
              [{ ttype := "error", text1 := "授权回调处理失败", text2 := some "网络错误或服务器异常" }])
        | Except.ok r =>
            if r.ok then handleSuccessfulOAuthP1 env.checkEnv env.apiBaseUrl s1
            else
              (s1, false,
                [{ ttype := "error", text1 := "授权处理失败",
                   text2 := some ((r.error).getD "服务器处理授权信息时出错") }])

/-- Result of the exchange-token fetch in `handleOAuthDeepLink`
(`{success, cookie?}`). -/
structure ExchangeResult where
  success : Bool
  cookie : Option String
deriving DecidableEq, Repr

/-- Collaborator behavior for `handleOAuthDeepLink` of
src/app/_layout.tsx: the settings `apiBaseUrl` and the exchange-token
fetch outcome (a rejected fetch or non-2xx response is the error
case). -/
structure DeepLinkEnv where
  apiBaseUrl : Option String
  exchangeResult : Except JsError ExchangeResult

/-- `handleOAuthDeepLink` of src/app/_layout.tsx (lines 81-211): parse
failure notifies and returns `false`; with `success=true` and a truthy
`token` it performs the exchange-token fetch.  On exchange success the
source calls `authStore.set({...})` (line 142), but the state returned
by `useAuthStore.getState()` has no `set` member — the `AuthState`
interface (authStore.ts lines 11-33) declares none — so the call throws
a TypeError that the inner catch (lines 184-192) turns into a failure
toast and `return false`.  Lines 150-183, including the forced-success
fallback at 167-183, are therefore unreachable, and the handler never
mutates the store state on any path. -/
def handleOAuthDeepLink (env : DeepLinkEnv) (url : OAuthUrl) (s : AuthState) :
    AuthState × Bool × List ToastMsg :=
  match url.parsed with
  | none =>
      (s, false,
        [{ ttype := "error", text1 := "链接格式错误", text2 := some "无效的链接格式" }])
  | some p =>
      if (p.success == some "true") && truthyStr p.token then
        if !truthyStr env.apiBaseUrl then
          (s, false,
            [{ ttype := "error", text1 := "登录失败",
               text2 := some "API base URL not available" }])
        else
          match env.exchangeResult with
          | Except.error e =>
              (s, false,
                [{ ttype := "error", text1 := "登录失败",
                   text2 := some (if e.isErrorInstance then e.message else "无法获取认证信息") }])
          | Except.ok r =>
              if !(r.success && truthyStr r.cookie) then
                (s, false,
                  [{ ttype := "error", text1 := "登录失败", text2 := some "返回数据格式错误" }])
              else
                (s, false,
                  [{ ttype := "error", text1 := "登录失败",
                     text2 := some "authStore.set is not a function" }])
      else
        (s, false,
          [{ ttype := "error", text1 := "授权失败", text2 := some "深度链接缺少token参数" }])

/-- A settings snapshot with a loaded cookie-backed ("redis") config. -/
def settingsRedis : SettingsEnv :=
  { isLoadingServerConfig := false
    serverConfig0 := some { StorageType := some "redis" }
    waitOutcome := none }

/-- A settings snapshot with a loaded "localstorage" config. -/
def settingsLocal : SettingsEnv :=
  { isLoadingServerConfig := false
    serverConfig0 := some { StorageType := some "localstorage" }
    waitOutcome := none }

/-- A generic non-401 network failure. -/
def netErr : JsError := { isErrorInstance := true, message := "NETWORK_ERROR" }

/-- `checkLoginStatus` collaborators: cookie-backed mode, auth cookie
absent, login rejecting. -/
def checkEnvNoCookie : CheckEnvV :=
  { settings := settingsRedis
    cookies := Except.ok { auth := none }
    loginResult := Except.error netErr }

/-- `checkLoginStatus` collaborators: localstorage mode, no cookie,
`api.login()` rejecting with a non-401 error. -/
def checkEnvLoginRejects : CheckEnvV :=
  { settings := settingsLocal
    cookies := Except.ok { auth := none }
    loginResult := Except.error netErr }

/-- `checkLoginStatus` collaborators: cookie-backed mode with
`Cookies.get` rejecting. -/
def checkEnvCookieThrows : CheckEnvV :=
  { settings := settingsRedis
    cookies := Except.error netErr
    loginResult := Except.ok { ok := false, error := none } }

/-- The polling-variant collaborators: cookie-backed mode, the auth
cookie absent on every attempt, login rejecting. -/
def checkEnvPNoCookie : CheckEnvP :=
  { settings := settingsRedis
    probe := fun _ => Except.ok { auth := none }
    loginResult := Except.error netErr }

/-- The deep link `oriontv://oauth/callback?success=true&token=tok`. -/
def tokenCallbackUrl : OAuthUrl :=
  { raw := "oriontv://oauth/callback?success=true&token=tok"
    parsed := some
      { success := some "true", token := some "tok"
        code := none, stateParam := none, error := none } }

/-- The bare deep link `oriontv://oauth/callback` with no parameters. -/
def bareCallbackUrl : OAuthUrl :=
  { raw := "oriontv://oauth/callback"
    parsed := some
      { success := none, token := none
        code := none, stateParam := none, error := none } }

/-- A string `new URL` throws on. -/
def unparseableUrl : OAuthUrl := { raw := "::::", parsed := none }

/-- Deep-link environment: the token exchange succeeds with a cookie
value. -/
def deepLinkEnvC1 : DeepLinkEnv :=
  { apiBaseUrl := some "http://server.example"
    exchangeResult := Except.ok { success := true, cookie := some "abc" } }

/-- A legacy authorization-code callback URL carrying `code`/`state`. -/
def codeStateCallbackUrl : OAuthUrl :=
  { raw := "https://server.example/oauth/callback?code=abc&state=xyz"
    parsed := some
      { success := none, token := none
        code := some "abc", stateParam := some "xyz", error := none } }

/-- part_001 callback environment: the `code`/`state` exchange succeeds
but the cookie store never reports the auth cookie. -/
def callbackEnvC1P1 : CallbackEnvP1 :=
  { apiBaseUrl := some "http://server.example"
    checkEnv := checkEnvPNoCookie
    oauthCbResult := Except.ok { ok := true, error := none } }

/-- part_000 callback environment over `checkEnvPNoCookie`. -/
def callbackEnvC2 : CallbackEnvP :=
  { apiBaseUrl := some "http://server.example", checkEnv := checkEnvPNoCookie }

/-- A current-store callback environment (used for frame claims). -/
def callbackEnvVAny : CallbackEnvV :=
  { apiBaseUrl := some "http://server.example"
    checkEnv := checkEnvNoCookie
    oauthCbResult := Except.ok { ok := false, error := none } }

/-- A state with the OAuth in-progress marker set. -/
def s0InProgress : AuthState := { initialAuthState with isOAuthInProgress := true }

/-- A state with the registration prompt visible. -/
def s0RegVisible : AuthState := { initialAuthState with isRegisterModalVisible := true }

/-- C1: the claim requires that, after a successful token exchange whose
cookie verification exhausts its attempt budget with the auth cookie
never reported, the operation resolve `false` and `isLoggedIn` stay
`false`.  The cited part_000 handler violates it: the token deep-link
run whose six probes all report no auth cookie resolves `true` with
`isLoggedIn` forced to `true` (part_000 lines 362-371).  part_001
violates it on the `code`/`state` path: `api.handleOAuthCallback`
succeeds, verification exhausts its five probes cookie-less, yet
`_handleSuccessfulOAuth` resolves `true` (part_001 lines 340-365).
The current `handleOAuthDeepLink` happens to comply: its
`authStore.set` call throws, so at the same input it resolves `false`
with the state untouched. -/
theorem c1_exchange_success_verification_failure :
    (handleOAuthCallbackP0 callbackEnvC2 tokenCallbackUrl initialAuthState).2.1 = true
  ∧ (handleOAuthCallbackP0 callbackEnvC2 tokenCallbackUrl initialAuthState).1.isLoggedIn = true
  ∧ (handleOAuthCallbackP1 callbackEnvC1P1 codeStateCallbackUrl initialAuthState).2.1 = true
  ∧ callbackEnvC1P1.oauthCbResult = Except.ok { ok := true, error := none }
  ∧ (∀ i, probeAuth callbackEnvC2.checkEnv.probe i = false)
  ∧ (∀ i, probeAuth callbackEnvC1P1.checkEnv.probe i = false)
  ∧ initialAuthState.isLoggedIn = false
  ∧ (handleOAuthDeepLink deepLinkEnvC1 tokenCallbackUrl initialAuthState).2.1 = false
  ∧ (handleOAuthDeepLink deepLinkEnvC1 tokenCallbackUrl initialAuthState).1 = initialAuthState :=
  ⟨rfl, rfl, rfl, rfl, fun _ => rfl, fun _ => rfl, rfl, rfl, rfl⟩

/-- C2: the invariant "isLoggedIn becomes true only via non-cookie-mode
login success, an observed auth cookie, or a completed OAuth flow with a
confirmed session" fails on the code: part_000's `handleOAuthCallback`
(lines 362-371) forces `isLoggedIn := true` although every one of the six
cookie probes reported no auth cookie and the login call rejected. -/
theorem c2_unconfirmed_login_set :
    (handleOAuthCallbackP0 callbackEnvC2 tokenCallbackUrl initialAuthState).1.isLoggedIn = true
  ∧ (handleOAuthCallbackP0 callbackEnvC2 tokenCallbackUrl initialAuthState).2.1 = true
  ∧ initialAuthState.isLoggedIn = false
  ∧ (∀ i, callbackEnvC2.checkEnv.probe i = Except.ok { auth := none })
  ∧ (∀ i, probeAuth callbackEnvC2.checkEnv.probe i = false)
  ∧ callbackEnvC2.checkEnv.loginResult = Except.error netErr :=
  ⟨rfl, rfl, rfl, fun _ => rfl, fun _ => rfl, rfl⟩

/-- C3: `logout` is fail-open — for every outcome of `api.logout()`,
including rejection, all cookies are cleared and the state ends with
`isLoggedIn = false`, the login prompt visible and no current user. -/
theorem c3_logout_fail_open (r : Except JsError LogoutResult)
    (jar : List (String × String)) (s : AuthState) :
    logoutV0 r jar s
      = ([], { s with isLoggedIn := false, isLoginModalVisible := true,
                      currentUser := none }) := by
  cases r <;> rfl

theorem pollGo_count_le (probe : Nat → Except JsError CookieMap) :
    ∀ fuel i acc, (pollGo probe fuel i acc).2 ≤ i + fuel := by
  intro fuel
  induction fuel with
  | zero => intro i acc; simp [pollGo]
  | succ f ih =>
      intro i acc
      cases h : probe i with
      | ok c =>
          by_cases ht : truthyStr c.auth = true
          · simp [pollGo, h, ht]
          · simp only [Bool.not_eq_true] at ht
            have step := ih (i + 1) (some c)
            simp only [pollGo, h, ht]
            simp only [Bool.false_eq_true, if_false]
            omega
      | error e =>
          have step := ih (i + 1) acc
          simp only [pollGo, h]
          omega

theorem pollGo_first_success (probe : Nat → Except JsError CookieMap) :
    ∀ fuel i acc k, i ≤ k → k < i + fuel →
      (∀ j, i ≤ j → j < k → probeAuth probe j = false) →
      probeAuth probe k = true →
      (pollGo probe fuel i acc).2 = k + 1
      ∧ truthyAuthOpt (pollGo probe fuel i acc).1 = true := by
  intro fuel
  induction fuel with
  | zero => intro i acc k hik hk _ _; omega
  | succ f ih =>
      intro i acc k hik hk hbefore hsucc
      rcases Nat.eq_or_lt_of_le hik with heq | hlt
      · subst heq
        cases h : probe i with
        | ok c =>
            have hs : truthyStr c.auth = true := by simpa [probeAuth, h] using hsucc
            simp [pollGo, h, hs, truthyAuthOpt]
        | error e =>
            exact absurd hsucc (by simp [probeAuth, h])
      · have hfail : probeAuth probe i = false := hbefore i (Nat.le_refl i) hlt
        cases h : probe i with
        | ok c =>
            have hc : truthyStr c.auth = false := by simpa [probeAuth, h] using hfail
            have step := ih (i + 1) (some c) k hlt (by omega)
              (fun j hj hjk => hbefore j (by omega) hjk) hsucc
            simpa [pollGo, h, hc] using step
        | error e =>
            have step := ih (i + 1) acc k hlt (by omega)
              (fun j hj hjk => hbefore j (by omega) hjk) hsucc
            simpa [pollGo, h] using step

/-- Bounds of the polling variants' cookie-confirmation loop: part_001
uses 5 attempts with an 800 ms delay, part_000 uses 6 attempts with a
1000 ms delay (both within N ∈ [5,8] and delay ∈ [800,1000] ms); the
loop never makes more than `maxRetries` probe calls, and it stops on the
first attempt on which the auth cookie is reported present, with exactly
`k + 1` probe calls when attempt `k` is the first success. -/
theorem c4_cookie_poll_bounds :
    (5 ≤ maxRetriesP1 ∧ maxRetriesP1 ≤ 8 ∧ 800 ≤ retryDelayP1 ∧ retryDelayP1 ≤ 1000)
  ∧ (5 ≤ maxRetriesP0 ∧ maxRetriesP0 ≤ 8 ∧ 800 ≤ retryDelayP0 ∧ retryDelayP0 ≤ 1000)
  ∧ (∀ probe, (cookiePollP1 probe).2 ≤ maxRetriesP1)
  ∧ (∀ probe, (cookiePollP0 probe).2 ≤ maxRetriesP0)
  ∧ (∀ probe k, k < maxRetriesP1 →
      (∀ j, j < k → probeAuth probe j = false) → probeAuth probe k = true →
      (cookiePollP1 probe).2 = k + 1 ∧ truthyAuthOpt (cookiePollP1 probe).1 = true)
  ∧ (∀ probe k, k < maxRetriesP0 →
      (∀ j, j < k → probeAuth probe j = false) → probeAuth probe k = true →
      (cookiePollP0 probe).2 = k + 1 ∧ truthyAuthOpt (cookiePollP0 probe).1 = true) := by
  refine ⟨⟨by decide, by decide, by decide, by decide⟩,
          ⟨by decide, by decide, by decide, by decide⟩, ?_, ?_, ?_, ?_⟩
  · intro probe
    simpa using pollGo_count_le probe maxRetriesP1 0 none
  · intro probe
    simpa using pollGo_count_le probe maxRetriesP0 0 none
  · intro probe k hk hbefore hsucc
    exact pollGo_first_success probe maxRetriesP1 0 none k (Nat.zero_le k)
      (by omega) (fun j _ hjk => hbefore j hjk) hsucc
  · intro probe k hk hbefore hsucc
    exact pollGo_first_success probe maxRetriesP0 0 none k (Nat.zero_le k)
      (by omega) (fun j _ hjk => hbefore j hjk) hsucc

/-- A probe on which the auth cookie first appears on attempt 1 (the
second attempt). -/
def probeSecondAttempt : Nat → Except JsError CookieMap :=
  fun i => if i == 1 then Except.ok { auth := some "tok" } else Except.ok { auth := none }

theorem c4_cookie_poll_bounds_witness :
    (cookiePollP1 probeSecondAttempt).2 = 2
  ∧ (cookiePollP0 probeSecondAttempt).2 = 2 :=
  ⟨(c4_cookie_poll_bounds.2.2.2.2.1 probeSecondAttempt 1 (by decide)
      (fun j hj => by
        have h0 : j = 0 := Nat.lt_one_iff.mp hj
        subst h0; rfl) rfl).1,
   (c4_cookie_poll_bounds.2.2.2.2.2 probeSecondAttempt 1 (by decide)
      (fun j hj => by
        have h0 : j = 0 := Nat.lt_one_iff.mp hj
        subst h0; rfl) rfl).1⟩

/-- The cookie-retrieval step of the current `checkLoginStatus`
(authStore.ts line 81): a single `await Cookies.get(api.baseURL)` with
no retry loop and no delay — under the attempt-indexed probe view used
for the polling variants it consumes exactly one attempt, attempt 0. -/
def cookieReadV0 (probe : Nat → Except JsError CookieMap) :
    Except JsError CookieMap × Nat := (probe 0, 1)

/-- C4: the claim that checkSession's cookie confirmation is a 5-8
attempt, 800-1000 ms polling loop is false of the cited current
implementation: authStore.ts line 81 performs a single un-retried
`Cookies.get` — one attempt, outside the claimed range, with no delay.
At the failing input, where the auth cookie becomes visible only on the
second attempt, the current store concludes logged-out from its single
read while part_001's five-attempt loop reaches the cookie and
concludes logged-in. -/
theorem c4_single_read_run :
    (∀ probe, (cookieReadV0 probe).2 = 1)
  ∧ ¬ (5 ≤ (cookieReadV0 probeSecondAttempt).2
        ∧ (cookieReadV0 probeSecondAttempt).2 ≤ 8)
  ∧ probeAuth probeSecondAttempt 1 = true
  ∧ (checkLoginStatusV0
        { settings := settingsRedis
          cookies := (cookieReadV0 probeSecondAttempt).1
          loginResult := Except.error netErr }
        (some "http://server.example") initialAuthState).1.isLoggedIn = false
  ∧ (checkLoginStatusP1
        { settings := settingsRedis
          probe := probeSecondAttempt
          loginResult := Except.error netErr }
        (some "http://server.example") initialAuthState).1.isLoggedIn = true :=
  ⟨fun _ => rfl, by decide, rfl, rfl, rfl⟩

/-- C5 counterexample: the claim "for any other error isLoggedIn is set
to false and the login prompt is not forced" is false on the code — in
localstorage mode with no cookie, a rejected `api.login()` call with a
non-401 error runs the inline `.catch` (authStore.ts lines 83-85), which
shows the login prompt even though the error is not classified
UNAUTHORIZED. -/
theorem c5_counterexample :
    isUnauthorizedErr netErr = false
  ∧ checkEnvLoginRejects.loginResult = Except.error netErr
  ∧ initialAuthState.isLoginModalVisible = false
  ∧ (checkLoginStatusV0 checkEnvLoginRejects (some "http://server.example")
      initialAuthState).1.isLoginModalVisible = true
  ∧ (checkLoginStatusV0 checkEnvLoginRejects (some "http://server.example")
      initialAuthState).1.isLoggedIn = false :=
  ⟨rfl, rfl, rfl, rfl, rfl⟩

/-- C5 amended: every error reaching `checkLoginStatus`'s top-level
catch handler (a rejected `Cookies.get`) sets `isLoggedIn = false` and
shows the login prompt exactly when classified 401/"UNAUTHORIZED",
leaving the prompt untouched otherwise; the credential-less auto-login
rejection path (local mode, no auth cookie) additionally sets
`isLoggedIn = false` and shows the prompt.  The embedded
`checkLoginStatus` is a total function of its environment — every
collaborator failure mode is absorbed, none propagates. -/
theorem c5_amended_error_policy :
    (∀ env u s e, env.cookies = Except.error e →
        truthyStr u = true →
        truthyStr (configStorage env.settings) = true →
        (checkLoginStatusV0 env u s).1.isLoggedIn = false
      ∧ (checkLoginStatusV0 env u s).1.isLoginModalVisible
          = (isUnauthorizedErr e || s.isLoginModalVisible))
  ∧ (∀ env u s e c, env.cookies = Except.ok c →
        truthyStr u = true →
        truthyStr (configStorage env.settings) = true →
        isLocalStorage (resolveConfig env.settings) = true →
        truthyStr c.auth = false →
        env.loginResult = Except.error e →
        (checkLoginStatusV0 env u s).1.isLoggedIn = false
      ∧ (checkLoginStatusV0 env u s).1.isLoginModalVisible = true) := by
  constructor
  · intro env u s e hc hu hcfg
    unfold checkLoginStatusV0
    simp only [configStorage] at hcfg
    simp only [hu, hcfg, hc, Bool.not_true, Bool.false_eq_true, if_false]
    by_cases h401 : isUnauthorizedErr e = true <;> simp [h401]
  · intro env u s e c hc hu hcfg hls hauth hlog
    unfold checkLoginStatusV0
    simp only [configStorage] at hcfg
    simp [hu, hcfg, hc, hls, hauth, hlog]

theorem c5_amended_error_policy_witness :
    ((checkLoginStatusV0 checkEnvCookieThrows (some "http://server.example")
        initialAuthState).1.isLoggedIn = false
    ∧ (checkLoginStatusV0 checkEnvCookieThrows (some "http://server.example")
        initialAuthState).1.isLoginModalVisible
        = (isUnauthorizedErr netErr || initialAuthState.isLoginModalVisible))
  ∧ ((checkLoginStatusV0 checkEnvLoginRejects (some "http://server.example")
        initialAuthState).1.isLoggedIn = false
    ∧ (checkLoginStatusV0 checkEnvLoginRejects (some "http://server.example")
        initialAuthState).1.isLoginModalVisible = true) :=
  ⟨c5_amended_error_policy.1 checkEnvCookieThrows (some "http://server.example")
      initialAuthState netErr rfl rfl rfl,
   c5_amended_error_policy.2 checkEnvLoginRejects (some "http://server.example")
      initialAuthState netErr { auth := none } rfl rfl rfl rfl rfl rfl⟩

/-- C6 counterexample: the claim says an absent server base address
hides both prompts; the code (authStore.ts lines 47-50) only hides the
login modal — a visible registration prompt stays visible. -/
theorem c6_counterexample :
    s0RegVisible.isRegisterModalVisible = true
  ∧ (checkLoginStatusV0 checkEnvLoginRejects none
      s0RegVisible).1.isRegisterModalVisible = true
  ∧ (checkLoginStatusV0 checkEnvLoginRejects none s0RegVisible).1.isLoggedIn = false :=
  ⟨rfl, rfl, rfl⟩

/-- C6 amended: `checkLoginStatus` with an absent server base address
sets `isLoggedIn = false`, hides the login prompt, leaves every other
field (in particular the registration prompt) unchanged, and emits no
notification. -/
theorem c6_amended_absent_server (env : CheckEnvV) (s : AuthState) :
    checkLoginStatusV0 env none s
      = ({ s with isLoggedIn := false, isLoginModalVisible := false }, []) := rfl

/-- C7 counterexample: the claim says a parse failure leaves the
in-progress marker unchanged; the code's catch (authStore.ts lines
335-340) sets `isOAuthInProgress := false`, changing an in-flight
attempt's marker. -/
theorem c7_counterexample :
    s0InProgress.isOAuthInProgress = true
  ∧ unparseableUrl.parsed = none
  ∧ (handleOAuthCallbackV0 callbackEnvVAny unparseableUrl
      s0InProgress).1.isOAuthInProgress = false
  ∧ (handleOAuthCallbackV0 callbackEnvVAny unparseableUrl s0InProgress).2.1 = false :=
  ⟨rfl, rfl, rfl, rfl⟩

/-- C7 amended: when the callback URL fails to parse, the handler
notifies a callback-processing error, returns `false`, and clears the
in-progress marker; every other state field is left unchanged. -/
theorem c7_amended_parse_failure (env : CallbackEnvV) (url : OAuthUrl)
    (s : AuthState) (h : url.parsed = none) :
    handleOAuthCallbackV0 env url s
      = ({ s with isOAuthInProgress := false }, false, [toastCallbackFailV0]) := by
  unfold handleOAuthCallbackV0
  rw [h]

theorem c7_amended_parse_failure_witness :
    handleOAuthCallbackV0 callbackEnvVAny unparseableUrl s0InProgress
      = ({ s0InProgress with isOAuthInProgress := false }, false, [toastCallbackFailV0]) :=
  c7_amended_parse_failure callbackEnvVAny unparseableUrl s0InProgress rfl

/-- C8: the bare callback URL `oriontv://oauth/callback` (no query
parameters) makes the current store's handler return `false` with the
missing-parameters toast and the in-progress marker cleared, and makes
part_000's handler return `false` with the marker cleared; neither
touches `isLoggedIn`. -/
theorem c8_bare_callback_fails_safely (envV : CallbackEnvV) (envP : CallbackEnvP)
    (s : AuthState) :
    handleOAuthCallbackV0 envV bareCallbackUrl s
        = ({ s with isOAuthInProgress := false }, false, [toastMissingParams])
  ∧ (handleOAuthCallbackP0 envP bareCallbackUrl s).2.1 = false
  ∧ (handleOAuthCallbackP0 envP bareCallbackUrl s).1.isOAuthInProgress = false
  ∧ (handleOAuthCallbackP0 envP bareCallbackUrl s).1.isLoggedIn = s.isLoggedIn := by
  refine ⟨?_, rfl, rfl, rfl⟩
  rfl

/-- C9: `checkLoginStatus` is idempotent on `isLoggedIn` — for a fixed
environment (no intervening cookie change, same collaborator behavior)
running it twice yields the same `isLoggedIn` as running it once. -/
theorem c9_checkSession_idempotent (env : CheckEnvV) (u : Option String)
    (s : AuthState) :
    (checkLoginStatusV0 env u (checkLoginStatusV0 env u s).1).1.isLoggedIn
      = (checkLoginStatusV0 env u s).1.isLoggedIn := by
  have h1 := checkLoginStatusV0_isLoggedIn env u s
  have h2 := checkLoginStatusV0_isLoggedIn env u (checkLoginStatusV0 env u s).1
  rw [h2, h1]
  cases loginOutcomeV0 env u <;> simp

/-- C10: `register` never touches `isLoggedIn`, `currentUser` or the
OAuth fields — for every server response or error it only flips the two
prompt-visibility flags and returns a boolean. -/
theorem c10_register_frame (r : Except JsError RegisterResult) (s : AuthState) :
    (registerV0 r s).1.isLoggedIn = s.isLoggedIn
  ∧ (registerV0 r s).1.currentUser = s.currentUser
  ∧ (registerV0 r s).1.isOAuthInProgress = s.isOAuthInProgress
  ∧ (registerV0 r s).1.oAuthUrl = s.oAuthUrl := by
  cases r with
  | error e => exact ⟨rfl, rfl, rfl, rfl⟩
  | ok v =>
      by_cases h : v.ok = true <;> simp [registerV0, h]
